import Mathlib

/-!
Verification development for the deadpool resource-pool crates.

The definitions below are a shallow embedding of the Rust sources:

* `crates/deadpool/src/managed/object.rs` — the `Object` (Loan) RAII
  wrapper, its `Drop` implementation, `Object::take`, and the accessors.
* `crates/deadpool-libsql/src/lib.rs` — the libsql `Manager` with its
  `run_test_query`, `create` and `recycle` operations.
* `crates/deadpool-libsql/src/config.rs` — the `Database` configuration
  tagged union and its resolution to a libsql builder.

Machine integers are modelled as `Nat` with an explicit `% 2 ^ 64` where
the source uses a wrapping `AtomicU64`.  Fallible operations return
`Except`/`Option`; a Rust `unwrap` on a missing value is modelled by an
`Option.none` result.  Backend I/O (the database answering a query, a
connection opening) is modelled by oracle arguments: a function giving
the backend's response to each issued statement and parameter.

Parts of the deadpool core that are not among the provided sources
(`pool.rs`: `return_object`, `detach_object`, the `next_id` counter; the
`Metrics` struct) are modelled from the specification and carry a doc
comment saying so.
-/

/-! ## libsql error and result types (`errors.rs`, deadpool core) -/

/-- Opaque model of `libsql::Error`: the core never inspects it, only
propagates it, so a wrapped message suffices. -/
inductive LibsqlError : Type where
  | mk (msg : String)
deriving DecidableEq, Repr

/-- `ConnectionError` from `crates/deadpool-libsql/src/errors.rs`: either
an error reported by the libsql connection or a failed test query with a
static message. -/
inductive ConnectionError : Type where
  | libsql (e : LibsqlError)
  | testQueryFailed (msg : String)
deriving DecidableEq, Repr

/-- `deadpool::managed::RecycleError` (deadpool core). Modelled from the
spec and its use in `lib.rs`: `recycle` wraps a backend error in the
`Backend` variant; the message variants exist but are unused here. -/
inductive RecycleError : Type where
  | message (msg : String)
  | staticMessage (msg : String)
  | backend (e : ConnectionError)
deriving DecidableEq, Repr

/-- Outcome of `Manager::recycle` (`RecycleResult`): keep the resource or
discard it with an error. -/
inductive RecycleResult : Type where
  | keep
  | discard (e : RecycleError)
deriving DecidableEq, Repr

/-! ## The libsql backend oracle

`run_test_query` performs, in order: `conn.query("SELECT ?", [c])` (may
fail), `rows.next()` (may fail, may yield no row), `row.get(0)` (may
fail, else yields a `u64`).  The oracle collapses this pipeline into one
response per issued `(statement, parameter)` pair. -/

/-- Backend response to one issued test query: each constructor is one of
the failure points of the query pipeline in `run_test_query`, or the
value of the first column of the first returned row. -/
inductive QueryResp : Type where
  | queryErr (e : LibsqlError)
  | nextErr (e : LibsqlError)
  | noRow
  | getErr (e : LibsqlError)
  | value (v : Nat)
deriving DecidableEq, Repr

/-- A backend oracle: the response of the database to each issued
statement and parameter. -/
def Db : Type := String → Nat → QueryResp

/-! ## The libsql `Manager` (`lib.rs`) -/

/-- Wrap-around bound of the `AtomicU64` counter. -/
def U64 : Nat := 2 ^ 64

/-- Mutable state of a `Manager`: the `test_query_count : AtomicU64`
field, kept below `2 ^ 64`. -/
structure ManagerState : Type where
  test_query_count : Nat
deriving DecidableEq, Repr

/-- `Manager::run_test_query`: fetch-and-increment the call counter
(wrapping at `2 ^ 64` like `AtomicU64::fetch_add`), issue
`SELECT ?` parameterized with the fetched value, and check that the
returned row's first column equals that value.  Returns the result
together with the updated counter state. -/
def run_test_query (db : Db) (st : ManagerState) :
    Except ConnectionError Unit × ManagerState :=
  let c := st.test_query_count
  let st2 : ManagerState := ⟨(c + 1) % U64⟩
  match db "SELECT ?" c with
  | .queryErr e => (.error (.libsql e), st2)
  | .nextErr e => (.error (.libsql e), st2)
  | .noRow =>
      (.error (.testQueryFailed "No rows returned from database for test query"), st2)
  | .getErr e => (.error (.libsql e), st2)
  | .value v =>
      if v = c then (.ok (), st2)
      else (.error (.testQueryFailed "Unexpected value returned for test query"), st2)

/-- `Manager::create` for `Conn` the connection type: `database.connect()`
(modelled by the `connect` oracle argument), then the test query; the
connection is returned only when both succeed. -/
def create {Conn : Type} (connect : Except LibsqlError Conn) (db : Db)
    (st : ManagerState) : Except ConnectionError Conn × ManagerState :=
  match connect with
  | .error e => (.error (.libsql e), st)
  | .ok conn =>
      match run_test_query db st with
      | (.ok _, st2) => (.ok conn, st2)
      | (.error e, st2) => (.error e, st2)

/-- `Manager::recycle`: run the test query on the existing connection and
map any error into `RecycleError::Backend`. -/
def recycle (db : Db) (st : ManagerState) : RecycleResult × ManagerState :=
  match run_test_query db st with
  | (.ok _, st2) => (.keep, st2)
  | (.error e, st2) => (.discard (.backend e), st2)

/-- State of the manager's counter after `k` completed test queries,
starting from a fresh manager (`AtomicU64::new(0)`); the counter update
does not depend on the backend's answers. -/
def counterAfter : Nat → Nat
  | 0 => 0
  | k + 1 => (counterAfter k + 1) % U64

/-- The counter value used by (fetched at the start of) the `k`-th test
query, counting from `0`, for a given backend oracle. -/
def stateAfter (db : Db) : Nat → ManagerState
  | 0 => ⟨0⟩
  | k + 1 => (run_test_query db (stateAfter db k)).2

/-- Counter value carried by the `k`-th test query issued by a fresh
manager against backend `db`. -/
def valueUsedAt (db : Db) (k : Nat) : Nat :=
  (stateAfter db k).test_query_count

/-- A constant backend oracle that never returns a row. -/
def dbNoRow : Db := fun _ _ => .noRow

theorem run_test_query_snd (db : Db) (st : ManagerState) :
    (run_test_query db st).2 = ⟨(st.test_query_count + 1) % U64⟩ := by
  unfold run_test_query
  rcases h : db "SELECT ?" st.test_query_count with e | e | _ | e | v <;> simp [h]
  split <;> rfl

theorem one_mod_U64 : (1 : Nat) % U64 = 1 :=
  Nat.mod_eq_of_lt (by norm_num [U64])

theorem counterAfter_eq (k : Nat) : counterAfter k = k % U64 := by
  induction k with
  | zero => rfl
  | succ n ih =>
      calc counterAfter (n + 1) = (n % U64 + 1) % U64 := by rw [counterAfter, ih]
        _ = (n % U64 + 1 % U64) % U64 := by rw [one_mod_U64]
        _ = (n + 1) % U64 := (Nat.add_mod n 1 U64).symm

theorem stateAfter_eq (db : Db) (k : Nat) :
    stateAfter db k = ⟨k % U64⟩ := by
  induction k with
  | zero => rfl
  | succ n ih =>
      rw [stateAfter, ih, run_test_query_snd]
      have : (n % U64 + 1) % U64 = (n + 1) % U64 := by
        calc (n % U64 + 1) % U64 = (n % U64 + 1 % U64) % U64 := by rw [one_mod_U64]
          _ = (n + 1) % U64 := (Nat.add_mod n 1 U64).symm
      simp only [this]

theorem valueUsedAt_eq (db : Db) (k : Nat) : valueUsedAt db k = k % U64 := by
  unfold valueUsedAt
  rw [stateAfter_eq]

/-! ## The managed `Object` (Loan) — `object.rs`

`Object<M>` holds `inner : Option<ObjectInner<M>>` and a weak reference
to its pool.  The weak reference's `upgrade()` result at each release
point is modelled as an explicit `Option (PoolState T)` argument: `none`
means the pool has been fully dropped.  The pool-side operations
`return_object` and `detach_object` live in the core's `pool.rs`, which
is not among the provided sources; they are modelled from the spec. -/

/-- `Metrics` (deadpool core). Modelled from the spec: per-resource
bookkeeping with a creation timestamp and a recycle count; pure data. -/
structure Metrics : Type where
  created_at : Nat
  recycle_count : Nat
deriving DecidableEq, Repr

/-- `ObjectInner<M>` from `object.rs`: the pooled resource, its strictly
monotonically increasing id, and its metrics. -/
structure ObjectInner (T : Type) : Type where
  obj : T
  id : Nat
  metrics : Metrics
deriving DecidableEq, Repr

/-- Modelled from the spec: the pool state visible to a Loan's release
paths (the core's `pool.rs` is not among the provided sources) — the
idle collection (LIFO, most recent first), the count of available
admission permits, the pool's notion of total managed resources, and
the configured capacity. -/
structure PoolState (T : Type) : Type where
  idle : List (ObjectInner T)
  permits : Nat
  size : Nat
  max_size : Nat
deriving DecidableEq, Repr

/-- Modelled from the spec: `PoolInner::return_object` (in the missing
`pool.rs`) — on normal release the resource is pushed back onto the
idle collection without validation and the permit count is left
unchanged (the permit transfers to backing the idle resource). -/
def return_object {T : Type} (s : PoolState T) (inner : ObjectInner T) :
    PoolState T :=
  { s with idle := inner :: s.idle }

/-- Modelled from the spec: `PoolInner::detach_object` (in the missing
`pool.rs`) — detaching decrements the pool's notion of total managed
resources by one and releases the permit immediately; the idle
collection is untouched. -/
def detach_object {T : Type} (s : PoolState T) : PoolState T :=
  { s with size := s.size - 1, permits := s.permits + 1 }

/-- `Object<M>` from `object.rs`, minus the weak pool handle (whose
`upgrade()` result is passed explicitly to each operation): the actual
object, wrapped in `Option` so the `Drop` impl and `take` can empty it. -/
structure Object (T : Type) : Type where
  inner : Option (ObjectInner T)
deriving DecidableEq, Repr

/-- What happened to the resource at one release point of a Loan. -/
inductive ReleaseEvent (T : Type) : Type where
  | returnToIdle (inner : ObjectInner T)
  | destroy (inner : ObjectInner T)
  | detach (obj : T)
  | noop
deriving DecidableEq, Repr

/-- An event that actually releases the resource (anything but `noop`). -/
def ReleaseEvent.isReal {T : Type} : ReleaseEvent T → Bool
  | .noop => false
  | _ => true

/-- Result of running `Drop::drop` on an `Object`: the release event, the
object afterwards (its `inner` taken if an event fired), and the pool
afterwards. -/
structure DropOutcome (T : Type) : Type where
  event : ReleaseEvent T
  residual : Object T
  poolAfter : Option (PoolState T)
deriving DecidableEq, Repr

/-- `impl Drop for Object` from `object.rs`: if `inner` is still present,
take it; then, if the weak pool reference upgrades, hand the inner back
via `return_object`, otherwise the resource is simply dropped
(destroyed).  If `inner` was already taken, nothing happens.  No path
unwraps a missing value, so this is total (never panics). -/
def Object.drop {T : Type} (o : Object T) (pool : Option (PoolState T)) :
    DropOutcome T :=
  match o.inner with
  | none => ⟨.noop, o, pool⟩
  | some inner =>
      match pool with
      | some s => ⟨.returnToIdle inner, ⟨none⟩, some (return_object s inner)⟩
      | none => ⟨.destroy inner, ⟨none⟩, none⟩

/-- `Object::take` from `object.rs`: `this.inner.take().unwrap().obj` —
a `none` result models the `unwrap` panic on an already-emptied object;
then, if the weak pool reference upgrades, `detach_object` runs on the
pool.  Returns the bare resource, the consumed object, the pool
afterwards, and the release event. -/
def Object.take {T : Type} (o : Object T) (pool : Option (PoolState T)) :
    Option (T × Object T × Option (PoolState T) × ReleaseEvent T) :=
  match o.inner with
  | none => none
  | some inner =>
      match pool with
      | some s => some (inner.obj, ⟨none⟩, some (detach_object s), .detach inner.obj)
      | none => some (inner.obj, ⟨none⟩, none, .detach inner.obj)

/-- `Object::id` from `object.rs`: `this.inner.as_ref().unwrap().id` —
the `unwrap` is modelled by an `Option` result. -/
def Object.id {T : Type} (o : Object T) : Option Nat :=
  o.inner.map ObjectInner.id

/-- `Object::metrics` from `object.rs`. -/
def Object.metrics {T : Type} (o : Object T) : Option Metrics :=
  o.inner.map ObjectInner.metrics

/-- `impl Deref for Object` from `object.rs`:
`&self.inner.as_ref().unwrap().obj`. -/
def Object.deref {T : Type} (o : Object T) : Option T :=
  o.inner.map ObjectInner.obj

/-- `impl DerefMut for Object` from `object.rs`: accesses the same field
mutably. -/
def Object.derefMut {T : Type} (o : Object T) : Option T :=
  o.inner.map ObjectInner.obj

/-- `impl AsRef for Object` from `object.rs`: delegates to `Deref`. -/
def Object.asRef {T : Type} (o : Object T) : Option T :=
  Object.deref o

/-- `impl AsMut for Object` from `object.rs`: delegates to `DerefMut`. -/
def Object.asMut {T : Type} (o : Object T) : Option T :=
  Object.derefMut o

/-- Modelled from the spec: the pool hands out Loans wrapping a present
resource — `Object { inner: Some(inner), pool: weak }` in the missing
`pool.rs`. -/
def Object.new {T : Type} (inner : ObjectInner T) : Object T :=
  ⟨some inner⟩

/-! ### Loan lifetime traces -/

/-- The caller-initiated terminal operation on a Loan: letting it drop,
or consuming it with `Object::take`. -/
inductive LoanOp : Type where
  | drop
  | take
deriving DecidableEq, Repr

/-- Run `n` successive `Drop::drop`s on an object, threading the object
and pool state, collecting the release events. -/
def runDrops {T : Type} : Object T → Option (PoolState T) → Nat →
    List (ReleaseEvent T)
  | _, _, 0 => []
  | o, pool, Nat.succ n =>
      let r := Object.drop o pool
      r.event :: runDrops r.residual r.poolAfter n

/-- All release events over a Loan's lifetime: one terminal operation
(`drop` or `take`), followed by `n` further drops of whatever object
state remains. -/
def lifetimeEvents {T : Type} (o : Object T) (pool : Option (PoolState T))
    (first : LoanOp) (n : Nat) : List (ReleaseEvent T) :=
  match first with
  | .drop => runDrops o pool (n + 1)
  | .take =>
      match Object.take o pool with
      | some (_, o2, pool2, ev) => ev :: runDrops o2 pool2 n
      | none => []

theorem runDrops_empty {T : Type} (pool : Option (PoolState T)) (n : Nat) :
    runDrops (⟨none⟩ : Object T) pool n =
      List.replicate n ReleaseEvent.noop := by
  induction n generalizing pool with
  | zero => rfl
  | succ m ih => simp [runDrops, Object.drop, List.replicate, ih]

theorem countP_replicate_noop {T : Type} (n : Nat) :
    (List.replicate n (ReleaseEvent.noop : ReleaseEvent T)).countP
      ReleaseEvent.isReal = 0 := by
  induction n with
  | zero => rfl
  | succ m ih => simp [List.replicate, List.countP_cons, ReleaseEvent.isReal, ih]

/-! ## The `next_id` counter (deadpool core, `pool.rs`)

The id-assignment code lives in the core's `pool.rs`, which is not among
the provided sources; only `object.rs`'s documentation of the `id` field
and the `Object::id` accessor are.  It is modelled from the spec. -/

/-- Modelled from the spec: the pool's `next_id` — "a single shared
monotonically increasing counter, accessed with an atomic
fetch-and-increment"; returns the assigned id and the new counter. -/
def next_id_fetch_add (next_id : Nat) : Nat × Nat :=
  (next_id, next_id + 1)

/-- Id assigned to the `k`-th resource constructed after the counter held
`s`: each construction performs one fetch-and-increment. -/
def idAt (s : Nat) : Nat → Nat
  | 0 => (next_id_fetch_add s).1
  | k + 1 => idAt (next_id_fetch_add s).2 k

/-- The Loan wrapping the `k`-th constructed resource: its inner carries
the id assigned by the counter. -/
def mkObjectAt {T : Type} (s k : Nat) (t : T) (m : Metrics) : Object T :=
  Object.new ⟨t, idAt s k, m⟩

theorem idAt_eq (s k : Nat) : idAt s k = s + k := by
  induction k generalizing s with
  | zero => rfl
  | succ n ih => rw [idAt, ih]; simp [next_id_fetch_add]; omega

/-! ## Configuration (`config.rs`)

All crate features (`core`, `replication`, `remote`, `sync`) are taken
as enabled, so every variant of the `Database` union exists and the
`cfg(not(...))` error branches are absent.  `PathBuf` is modelled as
`String`, `Duration` as `Nat` (nanoseconds), `bytes::Bytes` as a list of
bytes.  The libsql builder is modelled as data: which constructor was
called, with which arguments, and which options were applied in order. -/

/-- `bytes::Bytes`. -/
def Bytes : Type := List Nat

/-- `Cipher` from `config.rs`, a 1:1 copy of `libsql::Cipher`. -/
inductive Cipher : Type where
  | aes256Cbc
deriving DecidableEq, Repr

/-- `libsql::Cipher`. -/
inductive LibsqlCipher : Type where
  | aes256Cbc
deriving DecidableEq, Repr

/-- `Cipher::to_libsql` from `config.rs`. -/
def Cipher.to_libsql : Cipher → LibsqlCipher
  | .aes256Cbc => .aes256Cbc

/-- `EncryptionConfig` from `config.rs`. -/
structure EncryptionConfig : Type where
  cipher : Cipher
  encryption_key : Bytes

/-- `libsql::EncryptionConfig`. -/
structure LibsqlEncryptionConfig : Type where
  cipher : LibsqlCipher
  encryption_key : Bytes

/-- `EncryptionConfig::to_libsql` from `config.rs`. -/
def EncryptionConfig.to_libsql (c : EncryptionConfig) : LibsqlEncryptionConfig :=
  ⟨c.cipher.to_libsql, c.encryption_key⟩

/-- `OpenFlags` from `config.rs`: three independent booleans. -/
structure OpenFlags : Type where
  read_only : Bool
  read_write : Bool
  create : Bool
deriving DecidableEq, Repr

/-- `OpenFlags::to_libsql` from `config.rs`: or-combination of the
`libsql::OpenFlags` bits (`SQLITE_OPEN_READ_ONLY = 0x1`,
`SQLITE_OPEN_READ_WRITE = 0x2`, `SQLITE_OPEN_CREATE = 0x4`). -/
def OpenFlags.to_libsql (f : OpenFlags) : Nat :=
  (if f.read_only then 1 else 0) |||
    (if f.read_write then 2 else 0) |||
    (if f.create then 4 else 0)

/-- `EncryptionKey` from `config.rs`, a 1:1 copy of
`libsql::EncryptionKey`. -/
inductive EncryptionKey : Type where
  | base64Encoded (s : String)
  | bytes (b : Bytes)

/-- `libsql::EncryptionKey`. -/
inductive LibsqlEncryptionKey : Type where
  | base64Encoded (s : String)
  | bytes (b : Bytes)

/-- `EncryptionKey::to_libsql` from `config.rs`. -/
def EncryptionKey.to_libsql : EncryptionKey → LibsqlEncryptionKey
  | .base64Encoded s => .base64Encoded s
  | .bytes b => .bytes b

/-- `EncryptionContext` from `config.rs`. -/
structure EncryptionContext : Type where
  key : EncryptionKey

/-- `libsql::EncryptionContext`. -/
structure LibsqlEncryptionContext : Type where
  key : LibsqlEncryptionKey

/-- `EncryptionContext::to_libsql` from `config.rs`. -/
def EncryptionContext.to_libsql (c : EncryptionContext) : LibsqlEncryptionContext :=
  ⟨c.key.to_libsql⟩

/-- `SyncProtocol` from `config.rs`, a 1:1 copy of
`libsql::SyncProtocol`. -/
inductive SyncProtocol : Type where
  | v1
  | v2
deriving DecidableEq, Repr

/-- `libsql::SyncProtocol`. -/
inductive LibsqlSyncProtocol : Type where
  | v1
  | v2
deriving DecidableEq, Repr

/-- `SyncProtocol::to_libsql` from `config.rs`. -/
def SyncProtocol.to_libsql : SyncProtocol → LibsqlSyncProtocol
  | .v1 => .v1
  | .v2 => .v2

/-- Which `libsql::Builder` constructor a configuration variant resolved
to, with the arguments passed to it. -/
inductive BuilderKind : Type where
  | newLocal (path : String)
  | newLocalReplica (path : String)
  | newRemote (url auth_token : String)
  | newRemoteReplica (path url auth_token : String)
  | newSyncedDatabase (path url auth_token : String)

/-- One builder option application (`builder = builder.x(...)`). The
`nspace` option models the builder's `namespace(...)` call. -/
inductive BuilderOpt : Type where
  | encryptionConfig (c : LibsqlEncryptionConfig)
  | flags (f : Nat)
  | nspace (s : String)
  | readYourWrites (b : Bool)
  | remoteEncryption (c : LibsqlEncryptionContext)
  | remoteWrites (b : Bool)
  | setPushBatchSize (n : Nat)
  | syncInterval (d : Nat)
  | syncProtocol (p : LibsqlSyncProtocol)

/-- A `libsql::Builder` as data: the constructor it was created with and
the options applied to it, in application order. -/
structure Builder : Type where
  kind : BuilderKind
  opts : List BuilderOpt

/-- Apply one option to a builder (`builder = builder.x(...)`). -/
def Builder.addOpt (b : Builder) (o : BuilderOpt) : Builder :=
  { b with opts := b.opts ++ [o] }

/-- `Local` from `config.rs`. -/
structure Local : Type where
  path : String
  encryption_config : Option EncryptionConfig
  flags : Option OpenFlags

/-- `Local::libsql_database` from `config.rs`: `Builder::new_local`, then
the optional encryption config and flags. -/
def Local.libsql_database (c : Local) : Builder :=
  let b : Builder := ⟨.newLocal c.path, []⟩
  let b := match c.encryption_config with
    | some ec => b.addOpt (.encryptionConfig ec.to_libsql)
    | none => b
  match c.flags with
  | some f => b.addOpt (.flags f.to_libsql)
  | none => b

/-- `LocalReplica` from `config.rs`. -/
structure LocalReplica : Type where
  path : String
  encryption_config : Option EncryptionConfig
  flags : Option OpenFlags

/-- `LocalReplica::libsql_database` from `config.rs`:
`Builder::new_local_replica`, then the optional flags (the
`encryption_config` field is carried but not applied by this function in
the source). -/
def LocalReplica.libsql_database (c : LocalReplica) : Builder :=
  let b : Builder := ⟨.newLocalReplica c.path, []⟩
  match c.flags with
  | some f => b.addOpt (.flags f.to_libsql)
  | none => b

/-- `Remote` from `config.rs` (`nspace` models the `namespace` field). -/
structure Remote : Type where
  url : String
  auth_token : String
  nspace : Option String
  remote_encryption : Option EncryptionContext

/-- `Remote::libsql_database` from `config.rs`: `Builder::new_remote`,
then the optional namespace and remote encryption (the `sync` feature
being enabled). -/
def Remote.libsql_database (c : Remote) : Builder :=
  let b : Builder := ⟨.newRemote c.url c.auth_token, []⟩
  let b := match c.nspace with
    | some ns => b.addOpt (.nspace ns)
    | none => b
  match c.remote_encryption with
  | some ec => b.addOpt (.remoteEncryption ec.to_libsql)
  | none => b

/-- `RemoteReplica` from `config.rs` (`nspace` models the `namespace`
field; `Duration` as `Nat`). -/
structure RemoteReplica : Type where
  path : String
  url : String
  auth_token : String
  encryption_config : Option EncryptionConfig
  nspace : Option String
  read_your_writes : Option Bool
  remote_encryption : Option EncryptionContext
  sync_interval : Option Nat
  sync_protocol : Option SyncProtocol

/-- `RemoteReplica::libsql_database` from `config.rs`:
`Builder::new_remote_replica`, then the optional encryption config,
namespace, read-your-writes, remote encryption, sync interval and sync
protocol, in that order (all features enabled). -/
def RemoteReplica.libsql_database (c : RemoteReplica) : Builder :=
  let b : Builder := ⟨.newRemoteReplica c.path c.url c.auth_token, []⟩
  let b := match c.encryption_config with
    | some ec => b.addOpt (.encryptionConfig ec.to_libsql)
    | none => b
  let b := match c.nspace with
    | some ns => b.addOpt (.nspace ns)
    | none => b
  let b := match c.read_your_writes with
    | some w => b.addOpt (.readYourWrites w)
    | none => b
  let b := match c.remote_encryption with
    | some ec => b.addOpt (.remoteEncryption ec.to_libsql)
    | none => b
  let b := match c.sync_interval with
    | some d => b.addOpt (.syncInterval d)
    | none => b
  match c.sync_protocol with
  | some p => b.addOpt (.syncProtocol p.to_libsql)
  | none => b

/-- `SyncedDatabase` from `config.rs`. -/
structure SyncedDatabase : Type where
  path : String
  url : String
  auth_token : String
  read_your_writes : Option Bool
  remote_encryption : Option EncryptionContext
  remote_writes : Option Bool
  set_push_batch_size : Option Nat
  sync_interval : Option Nat

/-- `SyncedDatabase::libsql_database` from `config.rs`:
`Builder::new_synced_database`, then the optional read-your-writes,
remote encryption, remote writes, push batch size and sync interval, in
that order. -/
def SyncedDatabase.libsql_database (c : SyncedDatabase) : Builder :=
  let b : Builder := ⟨.newSyncedDatabase c.path c.url c.auth_token, []⟩
  let b := match c.read_your_writes with
    | some w => b.addOpt (.readYourWrites w)
    | none => b
  let b := match c.remote_encryption with
    | some ec => b.addOpt (.remoteEncryption ec.to_libsql)
    | none => b
  let b := match c.remote_writes with
    | some w => b.addOpt (.remoteWrites w)
    | none => b
  let b := match c.set_push_batch_size with
    | some n => b.addOpt (.setPushBatchSize n)
    | none => b
  match c.sync_interval with
  | some d => b.addOpt (.syncInterval d)
  | none => b

/-- `Database` from `config.rs`: the tagged union of the five mutually
exclusive backend topologies (`local_` models the `Local` variant, a
reserved word in Lean). -/
inductive Database : Type where
  | local_ (c : Local)
  | localReplica (c : LocalReplica)
  | remote (c : Remote)
  | remoteReplica (c : RemoteReplica)
  | syncedDatabase (c : SyncedDatabase)

/-- `Database::libsql_database` from `config.rs`: dispatch on the variant
and delegate to that variant's resolver. -/
def Database.libsql_database : Database → Builder
  | .local_ c => c.libsql_database
  | .localReplica c => c.libsql_database
  | .remote c => c.libsql_database
  | .remoteReplica c => c.libsql_database
  | .syncedDatabase c => c.libsql_database

theorem Builder.addOpt_kind (b : Builder) (o : BuilderOpt) :
    (b.addOpt o).kind = b.kind := rfl

/-! ## Claim theorems -/

/-- C1: for every Loan whose resource is still present, any lifetime
trace — one terminal operation (drop or `take`) followed by any number
of repeated drops of the remaining state — produces exactly one real
release event: return-to-idle when dropped with the pool alive, destroy
when dropped with the pool dead, detach when taken; every repeated
release is a no-op. -/
theorem C1_exactly_one_release {T : Type} (o : Object T)
    (pool : Option (PoolState T)) (i : ObjectInner T) (first : LoanOp)
    (n : Nat) (h : o.inner = some i) :
    lifetimeEvents o pool first n =
      (match first, pool with
        | LoanOp.drop, some _ => ReleaseEvent.returnToIdle i
        | LoanOp.drop, none => ReleaseEvent.destroy i
        | LoanOp.take, _ => ReleaseEvent.detach i.obj) ::
        List.replicate n ReleaseEvent.noop
    ∧ (lifetimeEvents o pool first n).countP ReleaseEvent.isReal = 1 := by
  have hchar : lifetimeEvents o pool first n =
      (match first, pool with
        | LoanOp.drop, some _ => ReleaseEvent.returnToIdle i
        | LoanOp.drop, none => ReleaseEvent.destroy i
        | LoanOp.take, _ => ReleaseEvent.detach i.obj) ::
        List.replicate n ReleaseEvent.noop := by
    cases first <;> cases pool <;>
      simp [lifetimeEvents, runDrops, Object.drop, Object.take, h,
        runDrops_empty]
  refine ⟨hchar, ?_⟩
  rw [hchar, List.countP_cons]
  cases first <;> cases pool <;>
    simp [ReleaseEvent.isReal, countP_replicate_noop]

/-- C1 witness: a concrete Loan over `Nat`, dropped once with the pool
dead and then twice more, destroys the resource exactly once. -/
theorem C1_witness :
    lifetimeEvents (Object.mk (some ⟨7, 3, ⟨0, 0⟩⟩) : Object Nat) none
        LoanOp.drop 2 =
      ReleaseEvent.destroy ⟨7, 3, ⟨0, 0⟩⟩ :: List.replicate 2 ReleaseEvent.noop
    ∧ (lifetimeEvents (Object.mk (some ⟨7, 3, ⟨0, 0⟩⟩) : Object Nat) none
        LoanOp.drop 2).countP ReleaseEvent.isReal = 1 :=
  C1_exactly_one_release _ none ⟨7, 3, ⟨0, 0⟩⟩ LoanOp.drop 2 rfl

/-- C2: dropping a Loan whose weak pool reference fails to upgrade
destroys the resource — the event is `destroy`, not return-to-idle —
performs no pool or permit bookkeeping (there is no pool state to
touch), and the drop is a total function (its code path performs no
`unwrap`, so it cannot panic). -/
theorem C2_dead_pool_drop_destroys {T : Type} (o : Object T)
    (i : ObjectInner T) (h : o.inner = some i) :
    Object.drop o (none : Option (PoolState T)) =
      ⟨ReleaseEvent.destroy i, ⟨none⟩, none⟩
    ∧ (Object.drop o (none : Option (PoolState T))).event ≠
        ReleaseEvent.returnToIdle i := by
  constructor
  · simp [Object.drop, h]
  · simp [Object.drop, h]

/-- C2 witness: a concrete Loan over `Nat` dropped after its pool died. -/
theorem C2_witness :
    Object.drop (Object.mk (some ⟨41, 5, ⟨1, 2⟩⟩) : Object Nat) none =
      ⟨ReleaseEvent.destroy ⟨41, 5, ⟨1, 2⟩⟩, ⟨none⟩, none⟩
    ∧ (Object.drop (Object.mk (some ⟨41, 5, ⟨1, 2⟩⟩) : Object Nat)
        none).event ≠ ReleaseEvent.returnToIdle ⟨41, 5, ⟨1, 2⟩⟩ :=
  C2_dead_pool_drop_destroys _ ⟨41, 5, ⟨1, 2⟩⟩ rfl

/-- C4: `Object::take` returns the bare resource to the caller, and when
the pool still exists it runs `detach_object` — decrementing the pool's
count of managed resources and releasing the permit immediately — while
leaving the idle collection untouched (the resource is never returned to
idle). -/
theorem C4_take_detaches {T : Type} (o : Object T) (i : ObjectInner T)
    (s : PoolState T) (h : o.inner = some i) :
    Object.take o (some s) =
      some (i.obj, ⟨none⟩, some (detach_object s), ReleaseEvent.detach i.obj)
    ∧ (detach_object s).size = s.size - 1
    ∧ (detach_object s).permits = s.permits + 1
    ∧ (detach_object s).idle = s.idle := by
  refine ⟨by simp [Object.take, h], rfl, rfl, rfl⟩

/-- C4 witness: taking a concrete Loan from a concrete live pool. -/
theorem C4_witness :
    Object.take (Object.mk (some ⟨9, 2, ⟨0, 1⟩⟩) : Object Nat)
        (some ⟨[], 1, 4, 4⟩) =
      some (9, ⟨none⟩, some (detach_object ⟨[], 1, 4, 4⟩),
        ReleaseEvent.detach 9)
    ∧ (detach_object (⟨[], 1, 4, 4⟩ : PoolState Nat)).size = 4 - 1
    ∧ (detach_object (⟨[], 1, 4, 4⟩ : PoolState Nat)).permits = 1 + 1
    ∧ (detach_object (⟨[], 1, 4, 4⟩ : PoolState Nat)).idle = [] :=
  C4_take_detaches _ ⟨9, 2, ⟨0, 1⟩⟩ ⟨[], 1, 4, 4⟩ rfl

/-- C10: a freshly issued Loan always has its inner present; on any
Object whose inner is present every accessor (`id`, `metrics`, `Deref`,
`DerefMut`, `AsRef`, `AsMut`) succeeds — the modelled `unwrap` cannot
fail — `take` succeeds, and the object `take` leaves behind is emptied,
so the only operation that can still run on it, `Drop::drop`, observes
nothing (it is a no-op). -/
theorem C10_accessors_never_panic {T : Type} (o : Object T)
    (i : ObjectInner T) (pool q : Option (PoolState T))
    (h : o.inner = some i) :
    (∀ inner : ObjectInner T, (Object.new inner).inner = some inner)
    ∧ Object.id o = some i.id
    ∧ Object.metrics o = some i.metrics
    ∧ Object.deref o = some i.obj
    ∧ Object.derefMut o = some i.obj
    ∧ Object.asRef o = some i.obj
    ∧ Object.asMut o = some i.obj
    ∧ (∃ r, Object.take o pool = some r)
    ∧ (∀ t o2 pool2 ev,
        Object.take o pool = some (t, o2, pool2, ev) →
          o2.inner = none ∧ (Object.drop o2 q).event = ReleaseEvent.noop) := by
  refine ⟨fun _ => rfl, ?_, ?_, ?_, ?_, ?_, ?_, ?_, ?_⟩
  case refine_7 =>
    cases pool <;>
      simp [Object.take, h]
  case refine_8 =>
    intro t o2 pool2 ev htake
    have ho2 : o2 = (⟨none⟩ : Object T) := by
      cases pool <;> simp [Object.take, h] at htake <;> exact htake.2.1.symm
    subst ho2
    exact ⟨rfl, by simp [Object.drop]⟩
  all_goals
    simp [Object.id, Object.metrics, Object.deref, Object.derefMut,
      Object.asRef, Object.asMut, h]

/-- C10 witness: a concrete Loan over `Nat` with a live pool. -/
theorem C10_witness :
    (∀ inner : ObjectInner Nat, (Object.new inner).inner = some inner)
    ∧ Object.id (Object.mk (some ⟨11, 6, ⟨2, 3⟩⟩) : Object Nat) = some 6
    ∧ Object.metrics (Object.mk (some ⟨11, 6, ⟨2, 3⟩⟩) : Object Nat) =
        some ⟨2, 3⟩
    ∧ Object.deref (Object.mk (some ⟨11, 6, ⟨2, 3⟩⟩) : Object Nat) = some 11
    ∧ Object.derefMut (Object.mk (some ⟨11, 6, ⟨2, 3⟩⟩) : Object Nat) =
        some 11
    ∧ Object.asRef (Object.mk (some ⟨11, 6, ⟨2, 3⟩⟩) : Object Nat) = some 11
    ∧ Object.asMut (Object.mk (some ⟨11, 6, ⟨2, 3⟩⟩) : Object Nat) = some 11
    ∧ (∃ r, Object.take (Object.mk (some ⟨11, 6, ⟨2, 3⟩⟩) : Object Nat)
        (some ⟨[], 0, 1, 1⟩) = some r)
    ∧ (∀ t o2 pool2 ev,
        Object.take (Object.mk (some ⟨11, 6, ⟨2, 3⟩⟩) : Object Nat)
            (some ⟨[], 0, 1, 1⟩) = some (t, o2, pool2, ev) →
          o2.inner = none ∧
            (Object.drop o2 (none : Option (PoolState Nat))).event =
              ReleaseEvent.noop) :=
  C10_accessors_never_panic _ ⟨11, 6, ⟨2, 3⟩⟩ (some ⟨[], 0, 1, 1⟩) none rfl

/-- C3: `recycle` issues `SELECT ?` parameterized with the current call
counter and keeps the connection iff the backend returns a row whose
first column equals exactly that counter value; its outcome depends only
on the backend's answer to that one query, and every other outcome — a
mismatched value, a missing row, or any backend error — is a discard
wrapping a `RecycleError::Backend`. -/
theorem C3_recycle_keep_iff_echo (db : Db) (st : ManagerState) :
    ((recycle db st).1 = RecycleResult.keep ↔
      db "SELECT ?" st.test_query_count =
        QueryResp.value st.test_query_count)
    ∧ ((recycle db st).1 = RecycleResult.keep ∨
        ∃ e, (recycle db st).1 =
          RecycleResult.discard (RecycleError.backend e))
    ∧ (∀ db2 : Db,
        db2 "SELECT ?" st.test_query_count =
            db "SELECT ?" st.test_query_count →
          (recycle db2 st).1 = (recycle db st).1) := by
  refine ⟨?_, ?_, ?_⟩
  · unfold recycle run_test_query
    rcases hdb : db "SELECT ?" st.test_query_count with e | e | _ | e | v <;>
      simp [hdb]
    by_cases hv : v = st.test_query_count <;> simp [hv]
  · unfold recycle run_test_query
    rcases hdb : db "SELECT ?" st.test_query_count with e | e | _ | e | v <;>
      simp [hdb]
    by_cases hv : v = st.test_query_count <;> simp [hv]
  · intro db2 hsame
    unfold recycle run_test_query
    simp only [hsame]

/-- C5: `create` returns a connection iff `database.connect()` succeeded
with that connection and the initial test query echoed the counter;
every failure — connect error, backend error during the query, missing
row, or wrong echoed value — yields an error, never a connection, so no
connection whose test query did not pass is ever returned. -/
theorem C5_create_ok_iff {Conn : Type} (connect : Except LibsqlError Conn)
    (db : Db) (st : ManagerState) (conn : Conn) :
    (create connect db st).1 = Except.ok conn ↔
      connect = Except.ok conn ∧
        db "SELECT ?" st.test_query_count =
          QueryResp.value st.test_query_count := by
  unfold create run_test_query
  rcases connect with e | c
  · simp
  · rcases hdb : db "SELECT ?" st.test_query_count with e | e | _ | e | v <;>
      simp [hdb]
    by_cases hv : v = st.test_query_count <;> simp [hv]

/-- C6 counterexample: the call counter is a wrapping `AtomicU64`, so the
value carried by test query number `2 ^ 64` equals the value carried by
test query number `0` — counter values are not strictly increasing and
not unique across all invocations of one `Manager`. -/
theorem C6_counterexample :
    valueUsedAt dbNoRow (2 ^ 64) = valueUsedAt dbNoRow 0 := by
  rw [valueUsedAt_eq, valueUsedAt_eq]
  unfold U64
  rw [Nat.mod_self, Nat.zero_mod]

/-- C6 (amended): successive test queries of one `Manager` carry
strictly increasing counter values — and hence values unique per call —
as long as the total number of invocations stays below `2 ^ 64`, the
wrap-around bound of the `AtomicU64` counter. -/
theorem C6_values_increase_below_wrap (db : Db) (i j : Nat) (hij : i < j)
    (hj : j < U64) : valueUsedAt db i < valueUsedAt db j := by
  rw [valueUsedAt_eq, valueUsedAt_eq]
  rw [Nat.mod_eq_of_lt (lt_trans hij hj), Nat.mod_eq_of_lt hj]
  exact hij

/-- C6 witness: the first two test queries of a fresh manager carry
increasing values. -/
theorem C6_witness :
    0 < 1 ∧ 1 < U64 ∧ valueUsedAt dbNoRow 0 < valueUsedAt dbNoRow 1 :=
  ⟨Nat.zero_lt_one, by norm_num [U64],
    C6_values_increase_below_wrap dbNoRow 0 1 Nat.zero_lt_one
      (by norm_num [U64])⟩

/-- C7: ids are assigned by a fetch-and-increment counter (modelled from
the spec; the assigning code is in the core's `pool.rs`, not among the
provided sources): `Object::id` reads back the assigned id, a resource
constructed later has a strictly greater id, and ids are never reused
(the assignment is injective). -/
theorem C7_id_monotone {T : Type} (s i j : Nat) (t u : T) (m m2 : Metrics)
    (hij : i < j) :
    Object.id (mkObjectAt s i t m) = some (idAt s i)
    ∧ Object.id (mkObjectAt s j u m2) = some (idAt s j)
    ∧ idAt s i < idAt s j
    ∧ (∀ a b : Nat, idAt s a = idAt s b → a = b) := by
  refine ⟨rfl, rfl, ?_, ?_⟩
  · rw [idAt_eq, idAt_eq]; omega
  · intro a b hab
    rw [idAt_eq, idAt_eq] at hab
    omega

/-- C7 witness: the first and second resources constructed from a fresh
counter. -/
theorem C7_witness :
    0 < 1 ∧
    (Object.id (mkObjectAt 0 0 (5 : Nat) ⟨0, 0⟩) = some (idAt 0 0)
      ∧ Object.id (mkObjectAt 0 1 (6 : Nat) ⟨0, 0⟩) = some (idAt 0 1)
      ∧ idAt 0 0 < idAt 0 1
      ∧ (∀ a b : Nat, idAt 0 a = idAt 0 b → a = b)) :=
  ⟨Nat.zero_lt_one, C7_id_monotone 0 0 1 5 6 ⟨0, 0⟩ ⟨0, 0⟩ Nat.zero_lt_one⟩

/-- C8: resolving a `Database` configuration dispatches on exactly one
of the five mutually exclusive topology variants, calling the libsql
builder constructor corresponding to that variant (with that variant's
own fields) and no other. -/
theorem C8_database_dispatch :
    (∀ c : Local,
      (Database.libsql_database (Database.local_ c)).kind =
        BuilderKind.newLocal c.path)
    ∧ (∀ c : LocalReplica,
      (Database.libsql_database (Database.localReplica c)).kind =
        BuilderKind.newLocalReplica c.path)
    ∧ (∀ c : Remote,
      (Database.libsql_database (Database.remote c)).kind =
        BuilderKind.newRemote c.url c.auth_token)
    ∧ (∀ c : RemoteReplica,
      (Database.libsql_database (Database.remoteReplica c)).kind =
        BuilderKind.newRemoteReplica c.path c.url c.auth_token)
    ∧ (∀ c : SyncedDatabase,
      (Database.libsql_database (Database.syncedDatabase c)).kind =
        BuilderKind.newSyncedDatabase c.path c.url c.auth_token) := by
  refine ⟨?_, ?_, ?_, ?_, ?_⟩
  · rintro ⟨path, ec, fl⟩
    cases ec <;> cases fl <;> rfl
  · rintro ⟨path, ec, fl⟩
    cases fl <;> rfl
  · rintro ⟨url, tok, ns, re⟩
    cases ns <;> cases re <;> rfl
  · rintro ⟨path, url, tok, ec, ns, ryw, re, si, sp⟩
    cases ec <;> cases ns <;> cases ryw <;> cases re <;> cases si <;>
      cases sp <;> rfl
  · rintro ⟨path, url, tok, ryw, re, rw2, pbs, si⟩
    cases ryw <;> cases re <;> cases rw2 <;> cases pbs <;> cases si <;> rfl

/-- C9: when the test query executes without a backend error but returns
no row, `run_test_query` fails with the distinguishable
`ConnectionError::TestQueryFailed`, `recycle` discards with that error
wrapped in `RecycleError::Backend`, and `create` (after a successful
connect) surfaces that same error instead of returning the
connection. -/
theorem C9_no_rows_distinct_error {Conn : Type} (db : Db)
    (st : ManagerState)
    (h : db "SELECT ?" st.test_query_count = QueryResp.noRow) :
    (run_test_query db st).1 =
      Except.error (ConnectionError.testQueryFailed
        "No rows returned from database for test query")
    ∧ (recycle db st).1 =
      RecycleResult.discard (RecycleError.backend
        (ConnectionError.testQueryFailed
          "No rows returned from database for test query"))
    ∧ (∀ conn : Conn,
        (create (Except.ok conn) db st).1 =
          Except.error (ConnectionError.testQueryFailed
            "No rows returned from database for test query")) := by
  refine ⟨?_, ?_, ?_⟩
  · unfold run_test_query
    simp [h]
  · unfold recycle run_test_query
    simp [h]
  · intro conn
    unfold create run_test_query
    simp [h]

/-- C9 witness: a backend that never returns a row, at the fresh
manager state. -/
theorem C9_witness :
    dbNoRow "SELECT ?" (ManagerState.mk 0).test_query_count =
      QueryResp.noRow
    ∧ ((run_test_query dbNoRow ⟨0⟩).1 =
        Except.error (ConnectionError.testQueryFailed
          "No rows returned from database for test query")
      ∧ (recycle dbNoRow ⟨0⟩).1 =
        RecycleResult.discard (RecycleError.backend
          (ConnectionError.testQueryFailed
            "No rows returned from database for test query"))
      ∧ (∀ conn : Nat,
          (create (Except.ok conn) dbNoRow ⟨0⟩).1 =
            Except.error (ConnectionError.testQueryFailed
              "No rows returned from database for test query"))) :=
  ⟨rfl, C9_no_rows_distinct_error dbNoRow ⟨0⟩ rfl⟩
